import Mathlib

/-!
Verification of the turn-orchestrator core of the AI-Customer-Assistant
backend: a shallow embedding of the deterministic logic of
`backend/api/two_pass_agent.py`, `backend/api/endpoint.py`,
`backend/services/context_manager.py`, `backend/services/cache.py` and
`backend/services/session_manager.py`, with theorems settling the spec's
claims about it.
-/

namespace AICA

/-! ### Python string primitives

The Python code uses `str.startswith`, `str.replace` and `str.strip`.  They
are embedded here as structurally recursive functions over the character
list of a `String`, so that concrete witnesses evaluate by `decide` (Lean's
built-in `String.replace` is defined by well-founded recursion and does not
reduce in the kernel). -/

/-- Python `s.startswith(pre)`. -/
def pyStartsWith (s pre : String) : Bool :=
  pre.data.isPrefixOf s.data

/-- Worker for `pyReplace`, with fuel for structural recursion; the fuel is
the length of the subject so it never runs out. -/
def pyReplaceGo (pat rep : List Char) : Nat → List Char → List Char
  | 0, s => s
  | _ + 1, [] => []
  | n + 1, c :: rest =>
    if pat ≠ [] ∧ pat.isPrefixOf (c :: rest) then
      rep ++ pyReplaceGo pat rep n ((c :: rest).drop pat.length)
    else
      c :: pyReplaceGo pat rep n rest

/-- Python `s.replace(pat, rep)`: every non-overlapping occurrence,
left to right. -/
def pyReplace (s pat rep : String) : String :=
  ⟨pyReplaceGo pat.data rep.data s.data.length s.data⟩

/-- Python `s.strip()`: whitespace removed from both ends. -/
def pyStrip (s : String) : String :=
  ⟨((s.data.dropWhile Char.isWhitespace).reverse.dropWhile
      Char.isWhitespace).reverse⟩

/-- Tool names, from `ToolName` in `backend/api/agent_schema.py`. -/
inductive ToolName where
  | product_search
  | faq_search
  | variant_check
  | process_order
  | list_orders
  | fetch_order_location
  deriving DecidableEq, Repr

/-- Tool parameter bag, from `ToolParameters` in `backend/api/agent_schema.py`:
every field is optional. -/
structure ToolParameters where
  query : Option String := none
  store : Option String := none
  product_id : Option String := none
  order_id : Option String := none
  action : Option String := none
  size : Option String := none
  color : Option String := none
  user_id : Option String := none
  deriving DecidableEq, Repr

/-- `parameters.model_dump(exclude_none=True)`: the key/value pairs of the
fields that are set, in field order. -/
def ToolParameters.dump (p : ToolParameters) : List (String × String) :=
  (p.query.map (fun v => ("query", v))).toList ++
  (p.store.map (fun v => ("store", v))).toList ++
  (p.product_id.map (fun v => ("product_id", v))).toList ++
  (p.order_id.map (fun v => ("order_id", v))).toList ++
  (p.action.map (fun v => ("action", v))).toList ++
  (p.size.map (fun v => ("size", v))).toList ++
  (p.color.map (fun v => ("color", v))).toList ++
  (p.user_id.map (fun v => ("user_id", v))).toList

/-- One planned tool invocation, from `ToolCall` in
`backend/api/agent_schema.py` (the `reasoning` string is irrelevant to
dispatch and omitted). -/
structure ToolCall where
  tool_name : ToolName
  parameters : ToolParameters := {}
  deriving DecidableEq, Repr

/-- The per-tool parameter allow-list, from the `valid_params` dict in
`TwoPassAgent._execute_single_tool` (`backend/api/two_pass_agent.py`). -/
def valid_params : ToolName → List String
  | .product_search => ["query", "store"]
  | .faq_search => ["query", "store"]
  | .variant_check => ["product_id", "size", "color"]
  | .process_order => ["order_id", "action", "store"]
  | .list_orders => ["store", "user_id"]
  | .fetch_order_location => ["order_id", "store"]

/-- The parameter bag forwarded to the tool capability: the dumped bag
restricted to the tool's allow-list, from
`TwoPassAgent._execute_single_tool` (every `ToolName` is a key of
`valid_params`, so the `if tool_call.tool_name in valid_params` guard in the
source always takes the filtering branch). -/
def forwardedParams (tc : ToolCall) : List (String × String) :=
  tc.parameters.dump.filter (fun kv => (valid_params tc.tool_name).contains kv.1)

/-- Pass-1 plan, restricted to the fields the dispatcher reads, from
`Pass1Output` in `backend/api/agent_schema.py`. -/
structure Pass1Output where
  tool_calls : List ToolCall
  requires_confirmation : Bool
  deriving DecidableEq, Repr

/-- The batch of tool calls dispatched in a turn, from
`TwoPassAgent.execute` (`backend/api/two_pass_agent.py`, the
`tools_to_execute` computation): when confirmation is required,
`process_order` calls are skipped. -/
def tools_to_execute (plan : Pass1Output) : List ToolCall :=
  if plan.requires_confirmation then
    plan.tool_calls.filter (fun tc => tc.tool_name ≠ ToolName.process_order)
  else
    plan.tool_calls

/-! ### Policy gate: verdict parsing (`_validate_action_against_policy`) -/

/-- The dict returned by
`TwoPassAgent._validate_action_against_policy` in
`backend/api/two_pass_agent.py`: keys `allowed`, `message`, `reason`. -/
structure ValidationOutcome where
  allowed : Bool
  message : String
  reason : Option String
  deriving DecidableEq, Repr

/-- Parsing of the composer's validation-mode response, from the tail of
`TwoPassAgent._validate_action_against_policy`: a response starting with the
`VALIDATION:ALLOWED` / `VALIDATION:DENIED` marker yields that verdict with
the marker stripped; anything else is treated as ALLOWED with the raw
response as message (fail-open, with a logged warning). -/
def parseValidationResponse (response : String) : ValidationOutcome :=
  if pyStartsWith response "VALIDATION:ALLOWED" then
    { allowed := true
      message := pyStrip (pyReplace response "VALIDATION:ALLOWED" "")
      reason := none }
  else if pyStartsWith response "VALIDATION:DENIED" then
    { allowed := false
      message := pyStrip (pyReplace response "VALIDATION:DENIED" "")
      reason := some "Policy violation" }
  else
    { allowed := true, message := response, reason := none }

/-- `TwoPassAgent._execute_pass2` (`backend/api/two_pass_agent.py`) as a
function of the composer call's outcome: its blanket `except Exception`
handler catches every composer exception and returns the filler string
instead of propagating, so the function never raises on a composer
failure. -/
def execute_pass2 (composer : Except String String) : String :=
  match composer with
  | .ok response => response
  | .error _ => "I'm here to help! How can I assist you today?"

/-- `_validate_action_against_policy` from the `_execute_pass2` call on, as
a function of the composer call's outcome: the response produced by
`execute_pass2` (which returns the filler string rather than raising when
the composer fails) is parsed for the `VALIDATION:` marker.  The
surrounding `except` branch of `_validate_action_against_policy` (the
fixed contact-support denial, see `validation_error_outcome`) fires only
when the validation body itself raises, which a composer failure never
causes. -/
def validate_action_against_policy (composer : Except String String) :
    ValidationOutcome :=
  parseValidationResponse (execute_pass2 composer)

/-- The `except` branch of `_validate_action_against_policy`
(`backend/api/two_pass_agent.py`): the verdict it would return if the
validation body raised — unreachable for composer failures, which
`execute_pass2`'s own handler converts into a returned filler string. -/
def validation_error_outcome (e : String) : ValidationOutcome :=
  { allowed := false
    message := "I'm having trouble validating this request against our policies. Please contact customer support for assistance."
    reason := some ("Validation error: " ++ e) }

/-! ### Context store: recent products (`ContextManager.update_context`) -/

/-- A product entry of `ConversationContext.recent_products`
(`backend/api/agent_schema.py`): the update logic inspects only the `id`;
`payload` stands for all remaining fields of the product dict. -/
structure Product where
  id : String
  payload : String := ""
  deriving DecidableEq, Repr

/-- `ContextManager.MAX_RECENT_PRODUCTS` in
`backend/services/context_manager.py`. -/
def MAX_RECENT_PRODUCTS : Nat := 10

/-- One iteration of the product-merge loop in
`ContextManager.update_context`: the incoming product is appended only when
its id is not already present (`existing_ids` is recomputed on every
iteration, so it also covers products appended earlier in the same call);
a product whose id is already present is discarded. -/
def addRecentProduct (recent : List Product) (p : Product) : List Product :=
  if recent.any (fun q => q.id == p.id) then recent else recent ++ [p]

/-- The `if products:` branch of `ContextManager.update_context`
(`backend/services/context_manager.py`): merge each incoming product, then
keep only the last `MAX_RECENT_PRODUCTS` entries (Python `[-10:]`). -/
def updateRecentProducts (recent products : List Product) : List Product :=
  let merged := products.foldl addRecentProduct recent
  merged.drop (merged.length - MAX_RECENT_PRODUCTS)

/-- `ContextManager.update_context` restricted to its effect on
`recent_products`: `None` or an empty list (falsy in Python) leaves the
field untouched. -/
def update_context_recent_products (recent : List Product)
    (products : Option (List Product)) : List Product :=
  match products with
  | none => recent
  | some [] => recent
  | some ps => updateRecentProducts recent ps

/-! ### Responses (`MessageResponse` in `backend/api/schema.py`), restricted
to the fields the claims talk about -/

/-- A user-facing response, restricted to the fields the claims mention. -/
structure MessageResponse where
  content : String
  store : String
  requires_human : Bool
  confidence_score : ℚ
  is_context_relevant : Bool
  warning_message : Option String := none
  deriving Repr

/-- `TwoPassAgent._create_fallback_response`
(`backend/api/two_pass_agent.py`): the fixed response returned when Pass 1
fails. -/
def create_fallback_response (store : String) : MessageResponse :=
  { content := "I'm here to help! Could you please rephrase your question?"
    store := store
    requires_human := true
    confidence_score := 0
    is_context_relevant := true
    warning_message := some "System encountered an issue processing your request." }

/-- The Pass-1 stage of `TwoPassAgent.execute`
(`backend/api/two_pass_agent.py`): `_execute_pass1` is called exactly once
(there is no retry); when it returns `None` the turn ends immediately with
the fallback response and the batch handed to `_execute_tools` is empty,
otherwise the batch is `tools_to_execute`. -/
def pass1_stage (store : String) (pass1_output : Option Pass1Output) :
    Option MessageResponse × List ToolCall :=
  match pass1_output with
  | none => (some (create_fallback_response store), [])
  | some plan => (none, tools_to_execute plan)

/-! ### Pending-action ledger and the confirmation flow -/

/-- The `action_payload` stored for a pending action by
`TwoPassAgent._create_pending_action`: an `action_type` string and the
normalized `process_order` parameters. -/
structure PendingActionData where
  action_type : String
  parameters : ToolParameters
  deriving DecidableEq, Repr

/-- The redis-backed pending-action store of
`CacheManager.store_pending_action` / `get_pending_action` /
`delete_pending_action` (`backend/services/cache.py`), modelled as an
association list keyed by action id; a TTL-expired entry is modelled by
its absence. -/
abbrev PendingLedger := List (String × PendingActionData)

/-- `CacheManager.get_pending_action`. -/
def ledger_get (l : PendingLedger) (action_id : String) :
    Option PendingActionData :=
  (l.find? (fun e => e.1 == action_id)).map (fun e => e.2)

/-- `CacheManager.delete_pending_action`. -/
def ledger_delete (l : PendingLedger) (action_id : String) : PendingLedger :=
  l.filter (fun e => e.1 != action_id)

/-- The part of `ConversationContext` the confirmation flow touches:
`pending_confirmation` and `current_order`
(`backend/api/agent_schema.py`), plus the store name used for responses. -/
structure SessionContext where
  store : String
  pending_confirmation : Option (String × PendingActionData) := none
  current_order : Option String := none
  deriving DecidableEq, Repr

/-- The mutable state the confirmation flow reads and writes: the
pending-action ledger and the session's conversation context. -/
structure ConfirmationState where
  ledger : PendingLedger
  context : SessionContext
  deriving DecidableEq, Repr

/-- Outcome of `execute_tool` for the confirmed action: it either returns
normally or raises. -/
inductive ToolExecOutcome where
  | ok
  | error (msg : String)
  deriving DecidableEq, Repr

/-- The response of `_handle_confirmation` when the ledger has no entry for
the action id. -/
def not_found_response (store : String) : MessageResponse :=
  { content := "I couldn't find that confirmation request. It may have expired. Please try again."
    store := store
    requires_human := false
    confidence_score := 1/2
    is_context_relevant := true }

/-- `TwoPassAgent._handle_confirmation` (`backend/api/two_pass_agent.py`)
as a state transformer: a missing ledger entry yields the "may have
expired" response and leaves the state unchanged; on successful execution
the ledger entry is deleted and the context's `pending_confirmation` and
`current_order` are cleared (`clear_pending_confirmation`,
`clear_order_context`); when `execute_tool` raises, the `except` branch
returns an error response without deleting or clearing anything. -/
def handle_confirmation (confirm_action_id : String)
    (exec : ToolExecOutcome) (st : ConfirmationState) :
    MessageResponse × ConfirmationState :=
  match ledger_get st.ledger confirm_action_id with
  | none => (not_found_response st.context.store, st)
  | some pa =>
    match exec with
    | .ok =>
      let action_type := pa.parameters.action.getD "process"
      let order_id := pa.parameters.order_id.getD "unknown"
      ({ content := "Your " ++ action_type ++ " request for order " ++
            order_id ++
            " has been processed successfully. Is there anything else I can help you with?"
         store := st.context.store
         requires_human := false
         confidence_score := 1
         is_context_relevant := true },
       { ledger := ledger_delete st.ledger confirm_action_id
         context := { st.context with
                        pending_confirmation := none
                        current_order := none } })
    | .error e =>
      ({ content := "I encountered an error while processing your request: "
            ++ e ++ ". Please contact support for assistance."
         store := st.context.store
         requires_human := true
         confidence_score := 0
         is_context_relevant := true },
       st)

/-! ### Escalation tracker / session lock (`backend/api/endpoint.py`,
`backend/services/session_manager.py`, `backend/services/flagged_sessions.py`) -/

/-- Classification of a flagging reason, from the `is_policy_violation` and
`is_technical_issue` membership tests in `websocket_chat`
(`backend/api/endpoint.py`). -/
inductive FlagClass where
  | policy
  | technical
  | other
  deriving DecidableEq, Repr

/-- The two reason lists tested in `websocket_chat`. -/
def classify_flag (reason : String) : FlagClass :=
  if reason = "policy_violation" ∨ reason = "abusive_language" ∨
      reason = "prompt_injection" then
    .policy
  else if reason = "potential_error" ∨ reason = "unclear_request" then
    .technical
  else
    .other

/-- Per-session escalation state.  `locked` abstracts the presence of the
`session_lock:{session_id}` redis key written by `lock_session` and read by
`is_session_locked` (`backend/services/session_manager.py`; the generic
`get`/`set`/`delete` cache methods they call are absent from
`backend/services/cache.py` in this snapshot, so the key-value layer is
modelled from the spec as a per-session record that persists until
manually cleared).  `flag_count` is the number of `FlaggedSession` rows for
the session, as counted by `get_flag_count_for_session`
(`backend/services/flagged_sessions.py`). -/
structure SessionRecord where
  locked : Bool
  flag_count : Nat
  deriving DecidableEq, Repr

/-- The data the escalation logic reads from the finished turn's response:
whether the assessor flagged it, the flagging reason, and the composed
content. -/
structure AgentTurnOutcome where
  requires_human : Bool
  flagging_reason : String
  content : String
  deriving DecidableEq, Repr

/-- What one loop iteration of `websocket_chat` delivers to the user:
the outgoing content, whether the agent (and with it the intent planner)
was invoked at all, and the `session_locked` flag sent back. -/
structure TurnDelivery where
  content : String
  planner_invoked : Bool
  session_locked : Bool
  deriving DecidableEq, Repr

/-- The fixed response content sent when a locked session receives a
message (`backend/api/endpoint.py`, the `is_session_locked`
short-circuit). -/
def session_paused_content : String :=
  "This chat session is paused due to repeated policy violations. You can still review earlier messages, but sending new ones is disabled."

/-- The per-reason content substituted on the turn that locks the session
(`backend/api/endpoint.py`). -/
def lock_message (store reason : String) : String :=
  if reason = "abusive_language" then
    "This chat has been paused due to repeated inappropriate language. Please keep our conversation respectful. Contact support if you need assistance."
  else if reason = "prompt_injection" then
    "This chat has been paused. I can only assist with shopping-related questions. Contact support if you need help."
  else
    "This chat has been paused due to repeated off-topic requests. I'm here to help with shopping at "
      ++ store ++ ". Contact support if you need assistance."

/-- One iteration of the `websocket_chat` message loop
(`backend/api/endpoint.py`), restricted to the escalation logic: a locked
session short-circuits before the agent (and hence before intent
recognition) with the fixed paused response; otherwise the turn runs, and
when the response is flagged (`requires_human`) a `FlaggedSession` row is
stored (modelled as always succeeding), the per-session count re-read, and
a policy-violation-class reason with count ≥ 2 locks the session and
replaces the content, while a technical-class reason only logs.  The
agent call itself is abstracted by its outcome `turn`. -/
def process_turn (store : String) (st : SessionRecord)
    (turn : AgentTurnOutcome) : TurnDelivery × SessionRecord :=
  if st.locked then
    ({ content := session_paused_content
       planner_invoked := false
       session_locked := true }, st)
  else if turn.requires_human then
    let flag_count := st.flag_count + 1
    if classify_flag turn.flagging_reason = .policy ∧ 2 ≤ flag_count then
      ({ content := lock_message store turn.flagging_reason
         planner_invoked := true
         session_locked := true },
       { locked := true, flag_count := flag_count })
    else
      ({ content := turn.content
         planner_invoked := true
         session_locked := false },
       { st with flag_count := flag_count })
  else
    ({ content := turn.content
       planner_invoked := true
       session_locked := false }, st)

/-! ### Policy gate decision rule (spec-modelled) -/

/-- A denial cause named by the gate's explanation. -/
inductive DenialCause where
  | not_created
  | not_delivered
  | window_exceeded
  deriving DecidableEq, Repr

/-- An allow/deny verdict together with the unmet condition the denial
explanation names. -/
structure PolicyVerdictSpec where
  allowed : Bool
  denial : Option DenialCause
  deriving DecidableEq, Repr

/-- Modelled from the spec: the allow/deny decision of the Policy Gate is
produced by the external Response Composer in validation mode — the code
under `src/` only assembles the validation prompt in
`_validate_action_against_policy` and parses the returned marker (see
`parseValidationResponse`), so the decision rule itself is not code in the
repository.  Following the spec's words: cancel is allowed only while
status is `created`; return is allowed only once status is `delivered` and
within the policy's day window, otherwise denied with an explanation naming
the unmet condition (not delivered yet, or window exceeded). -/
def policy_gate_decision (action status : String)
    (elapsed_days window : Nat) : PolicyVerdictSpec :=
  if action = "cancel" then
    if status = "created" then ⟨true, none⟩ else ⟨false, some .not_created⟩
  else if action = "return" then
    if status = "delivered" then
      if elapsed_days ≤ window then ⟨true, none⟩
      else ⟨false, some .window_exceeded⟩
    else ⟨false, some .not_delivered⟩
  else
    ⟨false, none⟩

end AICA

namespace AICA

/-- C1: a policy-gate validation whose composer response does not begin
with the `VALIDATION:ALLOWED` / `VALIDATION:DENIED` marker is treated as
ALLOWED (fail-open): the returned verdict has `allowed = true` and the raw
response text as its message. -/
theorem policy_gate_fail_open (r : String)
    (h1 : pyStartsWith r "VALIDATION:ALLOWED" = false)
    (h2 : pyStartsWith r "VALIDATION:DENIED" = false) :
    validate_action_against_policy (.ok r) =
      { allowed := true, message := r, reason := none } := by
  simp [validate_action_against_policy, execute_pass2,
    parseValidationResponse, h1, h2]

/-- Witness for C1 at a concrete marker-less composer response. -/
theorem policy_gate_fail_open_witness :
    pyStartsWith "Sorry, I cannot decide this." "VALIDATION:ALLOWED" = false ∧
    pyStartsWith "Sorry, I cannot decide this." "VALIDATION:DENIED" = false ∧
    validate_action_against_policy (.ok "Sorry, I cannot decide this.") =
      { allowed := true, message := "Sorry, I cannot decide this.",
        reason := none } :=
  ⟨by decide, by decide,
   policy_gate_fail_open "Sorry, I cannot decide this." (by decide) (by decide)⟩

/-- C9 counterexample: at a concrete composer exception the verdict is
ALLOWED with the filler string as message — not the DENIED verdict with
the fixed contact-support message that the claim asserts, because
`_execute_pass2`'s handler returns the filler instead of raising. -/
theorem composer_exception_fails_open_counterexample :
    (validate_action_against_policy (.error "timeout")).allowed = true ∧
    validate_action_against_policy (.error "timeout") ≠
      validation_error_outcome "timeout" := by decide

/-- C9 (amended): when the composer call raises, `_execute_pass2`'s
blanket handler returns the marker-less filler string, so the gate fails
OPEN: the verdict is ALLOWED with the filler as its message; the
contact-support denial of `_validate_action_against_policy`'s own `except`
branch is never produced by a composer failure. -/
theorem composer_exception_fails_open (e : String) :
    validate_action_against_policy (.error e) =
      { allowed := true
        message := "I'm here to help! How can I assist you today?"
        reason := none } := rfl

/-- C8: when Pass 1 fails, the turn ends with the fixed fallback response
(confidence 0, `requires_human = true`) and no tool call is dispatched;
`pass1_stage` consumes a single Pass-1 outcome, reflecting that the
orchestrator never retries the planner. -/
theorem pass1_failure_fallback (store : String) :
    pass1_stage store none = (some (create_fallback_response store), []) ∧
    (create_fallback_response store).requires_human = true ∧
    (create_fallback_response store).confidence_score = 0 ∧
    (create_fallback_response store).content =
      "I'm here to help! Could you please rephrase your question?" :=
  ⟨rfl, rfl, rfl, rfl⟩

/-- C4: when the plan requires confirmation, the dispatched batch is the
planned calls with every `process_order` call removed: every dispatched
call is a planned non-`process_order` call, every planned
non-`process_order` call is dispatched, and the batch preserves the plan's
order (it is a sublist of the plan). -/
theorem confirmation_excludes_process_order (plan : Pass1Output)
    (h : plan.requires_confirmation = true) :
    (∀ tc ∈ tools_to_execute plan,
        tc ∈ plan.tool_calls ∧ tc.tool_name ≠ ToolName.process_order) ∧
    (∀ tc ∈ plan.tool_calls,
        tc.tool_name ≠ ToolName.process_order → tc ∈ tools_to_execute plan) ∧
    (tools_to_execute plan).Sublist plan.tool_calls := by
  unfold tools_to_execute
  rw [h]
  refine ⟨?_, ?_, ?_⟩
  · intro tc htc
    simp only [if_true] at htc
    have := List.mem_filter.mp htc
    refine ⟨this.1, by simpa using this.2⟩
  · intro tc htc hname
    simp only [if_true]
    exact List.mem_filter.mpr ⟨htc, by simpa using hname⟩
  · simp only [if_true]
    exact List.filter_sublist plan.tool_calls

/-- Witness for C4: a confirmation-required plan with a policy lookup and a
`process_order` call dispatches the lookup and nothing named
`process_order`. -/
theorem confirmation_excludes_process_order_witness :
    ((⟨ToolName.faq_search,
        { query := some "return policy", store := some "aurora" }⟩ : ToolCall) ∈
      tools_to_execute
        ⟨[⟨ToolName.faq_search,
            { query := some "return policy", store := some "aurora" }⟩,
          ⟨ToolName.process_order,
            { order_id := some "o7", action := some "return",
              store := some "aurora" }⟩], true⟩) ∧
    ∀ tc ∈ tools_to_execute
        ⟨[⟨ToolName.faq_search,
            { query := some "return policy", store := some "aurora" }⟩,
          ⟨ToolName.process_order,
            { order_id := some "o7", action := some "return",
              store := some "aurora" }⟩], true⟩,
      tc.tool_name ≠ ToolName.process_order :=
  ⟨(confirmation_excludes_process_order _ rfl).2.1 _ (by decide) (by decide),
   fun tc htc => ((confirmation_excludes_process_order _ rfl).1 tc htc).2⟩

/-- C5: the parameter bag actually forwarded to a tool capability contains
only keys in that tool's fixed allow-list; every other key produced by the
planner is discarded before dispatch. -/
theorem forwarded_params_in_allow_list (tc : ToolCall) :
    ∀ kv ∈ forwardedParams tc, kv.1 ∈ valid_params tc.tool_name := by
  intro kv hkv
  have h := (List.mem_filter.mp hkv).2
  simpa using h

/-- Witness for C5: a `list_orders` call on which the planner smuggled a
`query` parameter forwards only `store` and `user_id`. -/
theorem forwarded_params_in_allow_list_witness :
    forwardedParams
        ⟨ToolName.list_orders,
          { query := some "smuggled", store := some "aurora",
            user_id := some "u1" }⟩ =
      [("store", "aurora"), ("user_id", "u1")] ∧
    ("store" : String) ∈ valid_params ToolName.list_orders :=
  ⟨by decide,
   forwarded_params_in_allow_list
     ⟨ToolName.list_orders,
       { query := some "smuggled", store := some "aurora",
         user_id := some "u1" }⟩
     ("store", "aurora") (by decide)⟩

/-- C2: for every (status, elapsed_days) pair, cancel is allowed iff the
status is `created`, return is allowed iff the status is `delivered` and
the elapsed days are within the policy window (the boundary
`elapsed_days = window` included), and every denial names the unmet
condition. -/
theorem policy_gate_cancel_return_rule (status : String) (d w : Nat) :
    ((policy_gate_decision "cancel" status d w).allowed = true ↔
      status = "created") ∧
    ((policy_gate_decision "return" status d w).allowed = true ↔
      (status = "delivered" ∧ d ≤ w)) ∧
    (status ≠ "created" →
      (policy_gate_decision "cancel" status d w).denial =
        some DenialCause.not_created) ∧
    (status ≠ "delivered" →
      (policy_gate_decision "return" status d w).denial =
        some DenialCause.not_delivered) ∧
    (w < d →
      (policy_gate_decision "return" "delivered" d w).denial =
        some DenialCause.window_exceeded) ∧
    (policy_gate_decision "return" "delivered" w w).allowed = true := by
  refine ⟨?_, ?_, ?_, ?_, ?_, ?_⟩
  · by_cases h : status = "created" <;> simp [policy_gate_decision, h]
  · by_cases h : status = "delivered" <;> by_cases h2 : d ≤ w <;>
      simp [policy_gate_decision, h, h2]
  · intro h; simp [policy_gate_decision, h]
  · intro h; simp [policy_gate_decision, h]
  · intro h; simp [policy_gate_decision, Nat.not_le.mpr h]
  · simp [policy_gate_decision]

/-- Witness for C2: a shipped order can be neither cancelled nor returned,
a delivered order is returnable exactly up to the window boundary. -/
theorem policy_gate_cancel_return_rule_witness :
    (policy_gate_decision "cancel" "shipped" 3 30).denial =
      some DenialCause.not_created ∧
    (policy_gate_decision "return" "shipped" 3 30).denial =
      some DenialCause.not_delivered ∧
    (policy_gate_decision "return" "delivered" 31 30).denial =
      some DenialCause.window_exceeded ∧
    (policy_gate_decision "return" "delivered" 30 30).allowed = true :=
  ⟨(policy_gate_cancel_return_rule "shipped" 3 30).2.2.1 (by decide),
   (policy_gate_cancel_return_rule "shipped" 3 30).2.2.2.1 (by decide),
   (policy_gate_cancel_return_rule "delivered" 31 30).2.2.2.2.1 (by decide),
   (policy_gate_cancel_return_rule "delivered" 30 30).2.2.2.2.2⟩

/-- C6: a locked session short-circuits before intent recognition with the
fixed paused response and stays locked (sticky); a policy-violation-class
flag locks once the per-session flag count reaches 2; a technical-class
flag never changes the lock state and its response is only logged, not
replaced. -/
theorem session_lock_escalation (store : String) (st : SessionRecord)
    (turn : AgentTurnOutcome) :
    (st.locked = true →
      process_turn store st turn =
        ({ content := session_paused_content
           planner_invoked := false
           session_locked := true }, st)) ∧
    (st.locked = false → turn.requires_human = true →
      classify_flag turn.flagging_reason = FlagClass.policy →
      2 ≤ st.flag_count + 1 →
      (process_turn store st turn).2.locked = true ∧
      (process_turn store st turn).1.content =
        lock_message store turn.flagging_reason) ∧
    (classify_flag turn.flagging_reason = FlagClass.technical →
      (process_turn store st turn).2.locked = st.locked ∧
      (st.locked = false →
        (process_turn store st turn).1.content = turn.content)) ∧
    (st.locked = true → (process_turn store st turn).2.locked = true) := by
  refine ⟨?_, ?_, ?_, ?_⟩
  · intro h
    simp [process_turn, h]
  · intro h0 h1 h2 h3
    simp [process_turn, h0, h1, h2, h3]
  · intro h2
    by_cases h0 : st.locked
    · simp [process_turn, h0]
    · by_cases h1 : turn.requires_human <;>
        simp [process_turn, h0, h1, h2]
  · intro h
    simp [process_turn, h]

/-- Witness for C6: a second policy-violation flag locks, a locked session
short-circuits, and a technical flag leaves the lock state unchanged. -/
theorem session_lock_escalation_witness :
    (process_turn "aurora" ⟨false, 1⟩
        ⟨true, "policy_violation", "reply"⟩).2.locked = true ∧
    process_turn "aurora" ⟨true, 2⟩ ⟨false, "none", "hi"⟩ =
      ({ content := session_paused_content
         planner_invoked := false
         session_locked := true }, ⟨true, 2⟩) ∧
    (process_turn "aurora" ⟨false, 2⟩
        ⟨true, "unclear_request", "hmm"⟩).2.locked = false :=
  ⟨((session_lock_escalation "aurora" ⟨false, 1⟩
      ⟨true, "policy_violation", "reply"⟩).2.1 rfl rfl (by decide)
      (by decide)).1,
   (session_lock_escalation "aurora" ⟨true, 2⟩ ⟨false, "none", "hi"⟩).1 rfl,
   ((session_lock_escalation "aurora" ⟨false, 2⟩
      ⟨true, "unclear_request", "hmm"⟩).2.2.1 (by decide)).1⟩

/-- Deleting an action id removes it from the ledger. -/
theorem ledger_get_delete (l : PendingLedger) (aid : String) :
    ledger_get (ledger_delete l aid) aid = none := by
  unfold ledger_get ledger_delete
  rw [List.find?_eq_none.mpr]
  · rfl
  · intro e he
    have h := (List.mem_filter.mp he).2
    simpa using h

/-- A missing ledger entry yields the "may have expired" response and
leaves the state unchanged. -/
theorem handle_confirmation_not_found (aid : String)
    (exec : ToolExecOutcome) (st : ConfirmationState)
    (h : ledger_get st.ledger aid = none) :
    handle_confirmation aid exec st =
      (not_found_response st.context.store, st) := by
  unfold handle_confirmation
  rw [h]

/-- The state after a successful confirmation: entry deleted, pending and
order context cleared. -/
theorem handle_confirmation_ok_state (aid : String) (st : ConfirmationState)
    (pa : PendingActionData) (h : ledger_get st.ledger aid = some pa) :
    (handle_confirmation aid .ok st).2 =
      { ledger := ledger_delete st.ledger aid
        context := { st.context with
                       pending_confirmation := none
                       current_order := none } } := by
  unfold handle_confirmation
  rw [h]

/-- C3: confirmation consumes a ledger entry at most once: after a
successful confirmation the entry is deleted, and a second confirmation
request with the same action id finds no entry and returns the "couldn't
find / may have expired, please try again" response instead of executing
again. -/
theorem pending_action_consumed_at_most_once (st : ConfirmationState)
    (aid : String) (pa : PendingActionData)
    (h : ledger_get st.ledger aid = some pa) :
    ledger_get (handle_confirmation aid .ok st).2.ledger aid = none ∧
    ∀ exec2,
      handle_confirmation aid exec2 (handle_confirmation aid .ok st).2 =
        (not_found_response st.context.store,
         (handle_confirmation aid .ok st).2) := by
  have hst := handle_confirmation_ok_state aid st pa h
  have hnone : ledger_get (handle_confirmation aid .ok st).2.ledger aid =
      none := by
    rw [hst]
    exact ledger_get_delete st.ledger aid
  refine ⟨hnone, ?_⟩
  intro exec2
  have hnf := handle_confirmation_not_found aid exec2
    (handle_confirmation aid .ok st).2 hnone
  rw [hnf, hst]

/-- Witness for C3: confirming the same concrete action id twice. -/
theorem pending_action_consumed_at_most_once_witness :
    ledger_get
        [("a1", ⟨"process_order",
          { order_id := some "o7", action := some "cancel",
            store := some "aurora" }⟩)] "a1" =
      some ⟨"process_order",
        { order_id := some "o7", action := some "cancel",
          store := some "aurora" }⟩ ∧
    ledger_get
        (handle_confirmation "a1" .ok
          ⟨[("a1", ⟨"process_order",
              { order_id := some "o7", action := some "cancel",
                store := some "aurora" }⟩)],
           ⟨"aurora", none, some "o7"⟩⟩).2.ledger "a1" = none ∧
    handle_confirmation "a1" .ok
        (handle_confirmation "a1" .ok
          ⟨[("a1", ⟨"process_order",
              { order_id := some "o7", action := some "cancel",
                store := some "aurora" }⟩)],
           ⟨"aurora", none, some "o7"⟩⟩).2 =
      (not_found_response "aurora",
       (handle_confirmation "a1" .ok
          ⟨[("a1", ⟨"process_order",
              { order_id := some "o7", action := some "cancel",
                store := some "aurora" }⟩)],
           ⟨"aurora", none, some "o7"⟩⟩).2) :=
  ⟨by decide,
   (pending_action_consumed_at_most_once _ "a1"
     ⟨"process_order",
       { order_id := some "o7", action := some "cancel",
         store := some "aurora" }⟩ (by decide)).1,
   (pending_action_consumed_at_most_once _ "a1"
     ⟨"process_order",
       { order_id := some "o7", action := some "cancel",
         store := some "aurora" }⟩ (by decide)).2 .ok⟩

/-- C10: when executing the confirmed tool call raises, the ledger entry is
not deleted and the context's pending confirmation and current order are
not cleared — the whole state is returned unchanged, so the action id
remains confirmable — and the user receives an error response with
`requires_human = true`. -/
theorem confirmation_failure_keeps_pending (st : ConfirmationState)
    (aid e : String) (pa : PendingActionData)
    (h : ledger_get st.ledger aid = some pa) :
    handle_confirmation aid (.error e) st =
      ({ content := "I encountered an error while processing your request: "
            ++ e ++ ". Please contact support for assistance."
         store := st.context.store
         requires_human := true
         confidence_score := 0
         is_context_relevant := true }, st) ∧
    ledger_get (handle_confirmation aid (.error e) st).2.ledger aid =
      some pa ∧
    (handle_confirmation aid (.error e) st).2.context = st.context := by
  have heq : handle_confirmation aid (.error e) st =
      ({ content := "I encountered an error while processing your request: "
            ++ e ++ ". Please contact support for assistance."
         store := st.context.store
         requires_human := true
         confidence_score := 0
         is_context_relevant := true }, st) := by
    unfold handle_confirmation
    rw [h]
  refine ⟨heq, ?_, ?_⟩
  · rw [heq]
    exact h
  · rw [heq]

/-- Witness for C10: a failing execution leaves the concrete state
untouched and flags the response for a human. -/
theorem confirmation_failure_keeps_pending_witness :
    handle_confirmation "a1" (.error "boom")
        ⟨[("a1", ⟨"process_order",
            { order_id := some "o7", action := some "cancel",
              store := some "aurora" }⟩)],
         ⟨"aurora", none, some "o7"⟩⟩ =
      ({ content := "I encountered an error while processing your request: boom. Please contact support for assistance."
         store := "aurora"
         requires_human := true
         confidence_score := 0
         is_context_relevant := true },
       ⟨[("a1", ⟨"process_order",
            { order_id := some "o7", action := some "cancel",
              store := some "aurora" }⟩)],
         ⟨"aurora", none, some "o7"⟩⟩) ∧
    ledger_get
        (handle_confirmation "a1" (.error "boom")
          ⟨[("a1", ⟨"process_order",
              { order_id := some "o7", action := some "cancel",
                store := some "aurora" }⟩)],
           ⟨"aurora", none, some "o7"⟩⟩).2.ledger "a1" =
      some ⟨"process_order",
        { order_id := some "o7", action := some "cancel",
          store := some "aurora" }⟩ :=
  ⟨(confirmation_failure_keeps_pending _ "a1" "boom"
     ⟨"process_order",
       { order_id := some "o7", action := some "cancel",
         store := some "aurora" }⟩ (by decide)).1,
   (confirmation_failure_keeps_pending _ "a1" "boom"
     ⟨"process_order",
       { order_id := some "o7", action := some "cancel",
         store := some "aurora" }⟩ (by decide)).2.1⟩

/-- The truncation step keeps at most `MAX_RECENT_PRODUCTS` entries. -/
theorem updateRecentProducts_length_le (recent ps : List Product) :
    (updateRecentProducts recent ps).length ≤ MAX_RECENT_PRODUCTS := by
  unfold updateRecentProducts MAX_RECENT_PRODUCTS
  simp only [List.length_drop]
  omega

/-- Merging one product preserves distinctness of the ids. -/
theorem addRecentProduct_nodup (recent : List Product) (p : Product)
    (h : (recent.map Product.id).Nodup) :
    ((addRecentProduct recent p).map Product.id).Nodup := by
  unfold addRecentProduct
  split
  · exact h
  · rename_i hany
    rw [List.map_append]
    rw [List.nodup_append]
    refine ⟨h, List.nodup_singleton _, ?_⟩
    intro x hx hx'
    rcases List.mem_map.mp hx with ⟨q, hq, hid⟩
    have hxp : x = p.id := by simpa using hx'
    exact hany (List.any_eq_true.mpr
      ⟨q, hq, by simp [hid, hxp.symm.trans hid.symm]⟩)

/-- The whole merge loop preserves distinctness of the ids. -/
theorem foldl_addRecentProduct_nodup (ps : List Product) :
    ∀ recent : List Product, (recent.map Product.id).Nodup →
      ((ps.foldl addRecentProduct recent).map Product.id).Nodup := by
  induction ps with
  | nil => intro recent h; exact h
  | cons p ps ih =>
      intro recent h
      exact ih _ (addRecentProduct_nodup recent p h)

/-- C7 (amended): after any context update `recent_products` has at most
10 entries and pairwise distinct ids; but an incoming product whose id is
already present is discarded — the existing occurrence keeps its original
position (it does not move to the most-recent position). -/
theorem recent_products_invariant (recent : List Product)
    (products : Option (List Product))
    (hlen : recent.length ≤ MAX_RECENT_PRODUCTS)
    (hnodup : (recent.map Product.id).Nodup) :
    (update_context_recent_products recent products).length ≤
      MAX_RECENT_PRODUCTS ∧
    ((update_context_recent_products recent products).map Product.id).Nodup ∧
    ∀ p : Product, p.id ∈ recent.map Product.id →
      update_context_recent_products recent (some [p]) = recent := by
  refine ⟨?_, ?_, ?_⟩
  · cases products with
    | none => exact hlen
    | some ps =>
      cases ps with
      | nil => exact hlen
      | cons q qs => exact updateRecentProducts_length_le recent (q :: qs)
  · cases products with
    | none => exact hnodup
    | some ps =>
      cases ps with
      | nil => exact hnodup
      | cons q qs =>
        show ((updateRecentProducts recent (q :: qs)).map Product.id).Nodup
        unfold updateRecentProducts
        have hm := foldl_addRecentProduct_nodup (q :: qs) recent hnodup
        have hsub :
            ((((q :: qs).foldl addRecentProduct recent).drop
                (((q :: qs).foldl addRecentProduct recent).length -
                  MAX_RECENT_PRODUCTS)).map Product.id).Sublist
              ((((q :: qs).foldl addRecentProduct recent)).map Product.id) :=
          (List.drop_sublist _ _).map _

        exact hm.sublist hsub
  · intro p hp
    have hany : (recent.any (fun q => q.id == p.id)) = true := by
      rw [List.any_eq_true]
      rcases List.mem_map.mp hp with ⟨q, hq, hid⟩
      exact ⟨q, hq, by simp [hid]⟩
    show updateRecentProducts recent [p] = recent
    unfold updateRecentProducts
    simp only [List.foldl_cons, List.foldl_nil]
    unfold addRecentProduct
    rw [if_pos hany]
    have hlen10 : recent.length ≤ 10 := hlen
    have h0 : recent.length - MAX_RECENT_PRODUCTS = 0 := by
      unfold MAX_RECENT_PRODUCTS
      omega
    rw [h0, List.drop_zero]

/-- Witness for C7 (amended) at concrete lists. -/
theorem recent_products_invariant_witness :
    update_context_recent_products [⟨"p1", "Apple"⟩]
        (some [⟨"p2", "Boot"⟩]) =
      [⟨"p1", "Apple"⟩, ⟨"p2", "Boot"⟩] ∧
    (update_context_recent_products [⟨"p1", "Apple"⟩]
        (some [⟨"p2", "Boot"⟩])).length ≤ MAX_RECENT_PRODUCTS ∧
    ((update_context_recent_products [⟨"p1", "Apple"⟩]
        (some [⟨"p2", "Boot"⟩])).map Product.id).Nodup ∧
    update_context_recent_products [⟨"p1", "Apple"⟩]
        (some [⟨"p1", "Apple v2"⟩]) =
      [⟨"p1", "Apple"⟩] :=
  ⟨by decide,
   (recent_products_invariant [⟨"p1", "Apple"⟩] (some [⟨"p2", "Boot"⟩])
     (by decide) (by decide)).1,
   (recent_products_invariant [⟨"p1", "Apple"⟩] (some [⟨"p2", "Boot"⟩])
     (by decide) (by decide)).2.1,
   (recent_products_invariant [⟨"p1", "Apple"⟩] (some [⟨"p1", "Apple v2"⟩])
     (by decide) (by decide)).2.2 ⟨"p1", "Apple v2"⟩ (by decide)⟩

/-- C7 counterexample: updating with a product whose id is already present
leaves the list unchanged — the product does not move to the most-recent
(last) position, so "last occurrence wins the ordering" fails on the
code. -/
theorem recent_products_no_move_counterexample :
    update_context_recent_products [⟨"p1", "Apple"⟩, ⟨"p2", "Boot"⟩]
        (some [⟨"p1", "Apple v2"⟩]) =
      [⟨"p1", "Apple"⟩, ⟨"p2", "Boot"⟩] ∧
    (update_context_recent_products [⟨"p1", "Apple"⟩, ⟨"p2", "Boot"⟩]
        (some [⟨"p1", "Apple v2"⟩])).getLast?.map Product.id ≠
      some "p1" := by decide

end AICA
